import Mathlib

/-!
Verification of the Presentation-Intelligence-Tool repository.

This file shallowly embeds the content-aggregation and generation pipeline
(`src/app.py`, `src/utils/web_scraper.py`, `src/utils/document_parser.py`,
`src/utils/ai_client.py`, `src/utils/ai_analyzer.py`,
`src/utils/prompt_loader.py`) and proves or refutes the frozen claims
about it.

Python strings are modelled as Lean `String`s; the Python `str` primitives
used by the code (`strip`, `split`, `splitlines`, `lower`, `in`,
`startswith`, slicing) are modelled explicitly on the underlying character
lists (ASCII-faithful).  External I/O (HTTP fetches, file reads, SDK calls)
is modelled by oracle functions supplied as parameters, so every embedded
function is a pure function of its request and of those oracles.
-/

namespace PyStr

/-- Characters Python `str.strip()` removes (ASCII fragment). -/
def isWs (c : Char) : Bool := c = ' ' ∨ c = '\t' ∨ c = '\n' ∨ c = '\r'

/-- Model of Python `str.strip()` on a character list. -/
def chTrim (cs : List Char) : List Char :=
  ((cs.dropWhile isWs).reverse.dropWhile isWs).reverse

/-- Model of Python `str.split(sep)` for a one-character separator:
splits at every occurrence, producing `n+1` parts for `n` separators. -/
def chSplit (sep : Char) : List Char → List (List Char)
  | [] => [[]]
  | c :: rest =>
    let r := chSplit sep rest
    if c = sep then [] :: r
    else
      match r with
      | [] => [[c]]
      | h :: t => (c :: h) :: t

/-- Model of Python `str.splitlines()` restricted to `\n` boundaries:
a trailing newline does not produce a final empty line, and the empty
string has no lines. -/
def chSplitLines : List Char → List (List Char)
  | [] => []
  | c :: rest =>
    if c = '\n' then [] :: chSplitLines rest
    else
      match chSplitLines rest with
      | [] => [[c]]
      | h :: t => (c :: h) :: t

/-- Model of Python `sep.join(parts)` for a one-character separator. -/
def chJoin (sep : Char) : List (List Char) → List Char
  | [] => []
  | [l] => l
  | l :: l2 :: ls => l ++ sep :: chJoin sep (l2 :: ls)

/-- Substring test, model of Python `sub in s`. -/
def chHasInfix (pat : List Char) : List Char → Bool
  | [] => pat.isEmpty
  | c :: rest => pat.isPrefixOf (c :: rest) || chHasInfix pat rest

/-- Model of Python `str.strip()`. -/
def pyStrip (s : String) : String := String.mk (chTrim s.data)

/-- Model of Python `str.split(sep)` for a one-character separator. -/
def pySplit (sep : Char) (s : String) : List String :=
  (chSplit sep s.data).map String.mk

/-- Model of Python `str.lower()` (ASCII). -/
def pyLower (s : String) : String := String.mk (s.data.map Char.toLower)

/-- Model of Python `sub in s` for strings. -/
def pyIn (sub s : String) : Bool := chHasInfix sub.data s.data

/-- Model of Python `str.startswith(pre)`. -/
def pyStartsWith (pre s : String) : Bool := pre.data.isPrefixOf s.data

/-- Model of Python `sep.join(parts)` for string separators. -/
def joinWith (sep : String) : List String → String
  | [] => ""
  | [x] => x
  | x :: y :: rest => x ++ sep ++ joinWith sep (y :: rest)

end PyStr

open PyStr

/-! ## `src/utils/web_scraper.py` -/

namespace WebScraper

/-- A successfully fetched resource (`resources` list entry in
`fetch_multiple_urls`). -/
structure Resource where
  url : String
  title : String
  content : String
deriving DecidableEq, Repr

/-- Result dictionary of `fetch_url_content`. -/
structure UrlResult where
  success : Bool
  url : String
  title : String
  content : String
  error : String
deriving DecidableEq, Repr

/-- Outcome of the HTTP GET + HTML parse for one URL: either the page
failed with an exception message (`requests` timeout or transport error —
the code maps each to a fixed error string), or the parse produced an
optional `<title>` string and the extracted text of the cleaned document.
This oracle stands for the `requests.get` / `BeautifulSoup` steps of
`fetch_url_content` (lines 39-53), which the code performs before its pure
text clean-up. -/
inductive PageOutcome where
  | failure (errorMessage : String)
  | ok (title : Option String) (text : String)

/-- The pure clean-up in `fetch_url_content` lines 56-57:
`lines = [line.strip() for line in text.splitlines() if line.strip()]`
then `content = '\n'.join(lines)`. -/
def scrapeLines (text : List Char) : List (List Char) :=
  ((chSplitLines text).map chTrim).filter (fun l => ¬ l.isEmpty)

/-- `fetch_url_content` (src/utils/web_scraper.py lines 15-97), with the
network/HTML steps abstracted by a `PageOutcome`.  On success the stored
content is the cleaned text truncated to 10,000 characters
(`content[:10000]`, line 65) and the title falls back to the URL
(line 50). -/
def fetch_url_content (page : PageOutcome) (url : String) : UrlResult :=
  match page with
  | .failure e => ⟨false, url, "", "", e⟩
  | .ok title? text =>
    let content := chJoin '\n' (scrapeLines text.data)
    ⟨true, url, title?.getD url, String.mk (content.take 10000), ""⟩

/-- Result dictionary of `fetch_multiple_urls`. -/
structure FetchBatch where
  success : Bool
  resources : List Resource
  failed_urls : List String
  summary : String
deriving DecidableEq, Repr

/-- The per-URL loop of `fetch_multiple_urls` (lines 134-144): each URL is
fetched via `fetch_url_content(url.strip())`; successes are appended to
`resources` (with the stripped url echoed back by `fetch_url_content`),
failures append the original url to `failed_urls`. -/
def fetchLoop (pageOf : String → PageOutcome) :
    List String → List Resource × List String
  | [] => ([], [])
  | url :: rest =>
    let result := fetch_url_content (pageOf (pyStrip url)) (pyStrip url)
    let (rs, fs) := fetchLoop pageOf rest
    if result.success then
      (⟨result.url, result.title, result.content⟩ :: rs, fs)
    else
      (rs, url :: fs)

/-- `fetch_multiple_urls` (src/utils/web_scraper.py lines 100-161). -/
def fetch_multiple_urls (pageOf : String → PageOutcome)
    (urls : List String) : FetchBatch :=
  if urls = [] then ⟨true, [], [], ""⟩
  else
    let p := fetchLoop pageOf urls
    let resources := p.1
    let failed_urls := p.2
    let summary :=
      if resources ≠ [] then
        "Successfully fetched " ++ toString resources.length ++ " resource(s)"
          ++ (if failed_urls ≠ [] then
                " (" ++ toString failed_urls.length ++ " failed)"
              else "")
      else "No resources were successfully fetched"
    ⟨decide (0 < resources.length) || decide (urls.length = 0),
     resources, failed_urls, summary⟩

end WebScraper

/-! ## `src/utils/document_parser.py` -/

namespace DocumentParser

open PyStr

/-- One step of the VTT-cleaning loop of `extract_from_transcript`
(src/utils/document_parser.py lines 158-180), over the list of lines
produced by `content.split('\n')` and the `skip_next` flag.  Per line the
code strips it, skips `WEBVTT` header lines, skips cue-timing lines
(containing `-->`, resetting `skip_next`), skips bare cue-identifier
lines (non-empty, `skip_next` unset, first character a digit, no colon,
setting `skip_next`), and appends every remaining non-empty line that
does not start with `NOTE` (resetting `skip_next`); any other line leaves
`skip_next` unchanged. -/
def vttLoop : List (List Char) → Bool → List (List Char)
  | [], _ => []
  | l :: rest, skipNext =>
    let line := chTrim l
    if ("WEBVTT".data).isPrefixOf line then vttLoop rest skipNext
    else if chHasInfix ("-->".data) line then vttLoop rest false
    else if ¬ line.isEmpty ∧ ¬ skipNext ∧ (line.headD ' ').isDigit ∧ ¬ line.contains ':' then
      vttLoop rest true
    else if ¬ line.isEmpty ∧ ¬ ("NOTE".data).isPrefixOf line then
      line :: vttLoop rest false
    else vttLoop rest skipNext

/-- The VTT-cleaning step of `extract_from_transcript`: split the content
on newlines, run the cleaning loop with `skip_next = False`, and join the
surviving lines with newlines (lines 156-182). -/
def cleanVtt (content : String) : String :=
  String.mk (chJoin '\n' (vttLoop (chSplit '\n' content.data) false))

/-- The text produced by `extract_from_transcript`
(src/utils/document_parser.py lines 130-196) given the file content and
extension: VTT files are cleaned, plain text files pass through unchanged
(lines 150-185). -/
def extract_from_transcript_text (content : String) (file_ext : String) : String :=
  if pyLower file_ext = "vtt" then cleanVtt content else content

end DocumentParser

/-! ## `src/app.py` — the `/analyze` request handler -/

namespace App

open PyStr WebScraper

/-- `ALLOWED_DECK_EXTENSIONS` (src/app.py line 34). -/
def deckExtensions : List String := ["pdf", "pptx"]

/-- `ALLOWED_TRANSCRIPT_EXTENSIONS` (src/app.py line 35). -/
def transcriptExtensions : List String := ["txt", "vtt"]

/-- `filename.rsplit('.', 1)[1].lower()`: the lowercased text after the
last dot. -/
def extOf (filename : String) : String :=
  pyLower ((pySplit '.' filename).getLastD "")

/-- `allowed_deck_file` (src/app.py lines 44-46). -/
def allowed_deck_file (filename : String) : Bool :=
  filename.data.contains '.' && deckExtensions.contains (extOf filename)

/-- `allowed_transcript_file` (src/app.py lines 49-51). -/
def allowed_transcript_file (filename : String) : Bool :=
  filename.data.contains '.' && transcriptExtensions.contains (extOf filename)

/-- Parsing of the `resource_urls` form field (src/app.py lines 84-87):
the field is stripped; if non-empty it is split on newlines, each line is
stripped, and blank lines are dropped. -/
def parseResourceUrls (raw : String) : List String :=
  let text := pyStrip raw
  if text = "" then []
  else ((pySplit '\n' text).map pyStrip).filter (fun u => u ≠ "")

/-- The content-combination step (src/app.py lines 263-270): labeled
sections for the deck and the transcript, in that fixed order, each
contributed only when its text is non-empty, joined by blank lines. -/
def combineContent (slide_content transcript_content : String) : String :=
  let parts :=
    (if slide_content ≠ "" then
       ["=== SLIDE DECK CONTENT ===\n\n" ++ slide_content]
     else []) ++
    (if transcript_content ≠ "" then
       ["=== PRESENTATION TRANSCRIPT ===\n\n" ++ transcript_content]
     else [])
  if parts ≠ [] then joinWith "\n\n" parts else ""

/-- Result of `extract_content` as consumed by the handler: the extracted
text and the optional `'error'` key. -/
structure ExtractOut where
  text : String
  error : Option String
deriving DecidableEq, Repr

/-- Result of `download_file_from_url` as consumed by the handler. -/
structure DownloadRes where
  success : Bool
  file_path : String
  filename : String
  error : String
deriving DecidableEq, Repr

/-- One concrete request to `/analyze` together with the outcomes of its
external collaborator calls (file saves, extraction, downloads, page
fetches, the AI analysis and the output writer).  Timestamps and
`secure_filename` sanitization are abstracted: filenames are taken as
already sanitized and the timestamp prefix is the literal `TS`. -/
structure HandlerEnv where
  title : String
  presenters : String
  notes : String
  github_url : String
  resource_urls_text : String
  prompt_template : String
  deck_source : String
  deck_file : Option String
  deck_save_raises : Bool
  deck_extract : ExtractOut
  deck_url : String
  deck_download : DownloadRes
  deck_url_extract : ExtractOut
  transcript_source : String
  transcript_file : Option String
  transcript_save_raises : Bool
  transcript_extract : ExtractOut
  transcript_url : String
  transcript_download : DownloadRes
  transcript_url_extract : ExtractOut
  pageOf : String → PageOutcome
  analysis_success : Bool
  outputs_raises : Bool
  outputs_success : Bool

/-- How the handler returns: a rendered results page, a flash-and-redirect
from an explicit validation/failure return, or the outer
`except Exception` path (src/app.py lines 356-359), which also flashes
and redirects. -/
inductive ExitKind where
  | results
  | redirect
  | errorRedirect
deriving DecidableEq, Repr

/-- Result of one stage of the handler: an early `return redirect(...)`
(with the files then on disk), an exception propagating out of the stage
(with the files then on disk), or normal continuation. -/
inductive StageRes (α : Type) where
  | exitR (disk : List String)
  | raised (disk : List String)
  | cont (val : α) (disk : List String)

/-- The cleanup loop `for f in files_to_cleanup: os.remove(f)` run before
a return (src/app.py, e.g. lines 122-124): every recorded file is removed,
leaving nothing on disk. -/
def cleanupAll (_disk : List String) : List String := []

/-- The slide-deck stage (src/app.py lines 93-173).  `files_to_cleanup`
is empty throughout this stage until a deck file is saved, so the two
returns that skip cleanup (invalid uploaded deck type, line 104, and
failed deck download, line 147) leave the empty disk unchanged. -/
def deckStage (env : HandlerEnv) : StageRes String :=
  if env.deck_source = "upload" then
    match env.deck_file with
    | none => .cont "" []
    | some fname =>
      if fname = "" then .cont "" []
      else if ¬ allowed_deck_file fname then .exitR []
      else if env.deck_save_raises then .raised []
      else
        let deck_path := "uploads/TS_deck_" ++ fname
        match env.deck_extract.error with
        | some _ => .exitR (cleanupAll [deck_path])
        | none =>
          if env.deck_extract.text = "" then .exitR (cleanupAll [deck_path])
          else .cont env.deck_extract.text [deck_path]
  else if env.deck_source = "url" then
    if pyStrip env.deck_url = "" then .cont "" []
    else if ¬ env.deck_download.success then .exitR []
    else
      let deck_path := env.deck_download.file_path
      let fname := env.deck_download.filename
      let fext := if fname.data.contains '.' then extOf fname else ""
      if fext = "" ∨ ¬ deckExtensions.contains fext then
        .exitR (cleanupAll [deck_path])
      else if env.deck_url_extract.error ≠ none ∨ env.deck_url_extract.text = "" then
        .exitR (cleanupAll [deck_path])
      else .cont env.deck_url_extract.text [deck_path]
  else .cont "" []

/-- The transcript stage (src/app.py lines 175-261), carrying the files
recorded by the deck stage.  Unlike the deck stage, every early return
here runs the cleanup loop first. -/
def transcriptStage (env : HandlerEnv) (disk : List String) : StageRes String :=
  if env.transcript_source = "upload" then
    match env.transcript_file with
    | none => .cont "" disk
    | some fname =>
      if fname = "" then .cont "" disk
      else if ¬ allowed_transcript_file fname then .exitR (cleanupAll disk)
      else if env.transcript_save_raises then .raised disk
      else
        let tpath := "uploads/TS_transcript_" ++ fname
        match env.transcript_extract.error with
        | some _ => .exitR (cleanupAll (disk ++ [tpath]))
        | none =>
          if env.transcript_extract.text = "" then
            .exitR (cleanupAll (disk ++ [tpath]))
          else .cont env.transcript_extract.text (disk ++ [tpath])
  else if env.transcript_source = "url" then
    if pyStrip env.transcript_url = "" then .cont "" disk
    else if ¬ env.transcript_download.success then .exitR (cleanupAll disk)
    else
      let tpath := env.transcript_download.file_path
      let fname := env.transcript_download.filename
      let fext := if fname.data.contains '.' then extOf fname else ""
      if fext = "" ∨ ¬ transcriptExtensions.contains fext then
        .exitR (cleanupAll (disk ++ [tpath]))
      else if env.transcript_url_extract.error ≠ none ∨ env.transcript_url_extract.text = "" then
        .exitR (cleanupAll (disk ++ [tpath]))
      else .cont env.transcript_url_extract.text (disk ++ [tpath])
  else .cont "" disk

/-- The arguments the handler passes to `analyze_presentation`
(src/app.py lines 295-303) that the claims are about. -/
structure AnalyzeCall where
  slide_content : String
  additional_resources : Option (List Resource)
deriving Repr

/-- What the handler produced: how it exited, the temporary files still on
disk at return, and the `analyze_presentation` invocation if one was
made. -/
structure HandlerOut where
  exit : ExitKind
  disk : List String
  call : Option AnalyzeCall
deriving Repr

/-- The tail of the handler after the combined content is built
(src/app.py lines 272-354): the at-least-one-source gate (which tests the
parsed URL list, not the fetched resources), the resource fetch (a wholly
failed fetch leaves `fetched_resources = None` and proceeds with only a
warning), the AI analysis, and the output-file generation (whose failure
or raised exception is the last thing that can happen while temp files
remain). -/
def afterContent (env : HandlerEnv) (resource_urls : List String)
    (combined : String) (disk : List String) : HandlerOut :=
  if combined = "" ∧ resource_urls = [] then
    ⟨.redirect, cleanupAll disk, none⟩
  else
    let fetched : Option (List Resource) :=
      if resource_urls ≠ [] then
        let fr := fetch_multiple_urls env.pageOf resource_urls
        if fr.success then some fr.resources else none
      else none
    let call : AnalyzeCall := ⟨combined, fetched⟩
    if ¬ env.analysis_success then ⟨.redirect, cleanupAll disk, some call⟩
    else if env.outputs_raises then ⟨.errorRedirect, disk, some call⟩
    else if ¬ env.outputs_success then ⟨.redirect, cleanupAll disk, some call⟩
    else ⟨.results, cleanupAll disk, some call⟩

/-- The `/analyze` handler (src/app.py lines 60-359): required-field
validation, the deck and transcript stages, content combination, and the
tail.  A stage exception reaches the outer `except Exception` handler,
which flashes and redirects without running the cleanup loop. -/
def analyzeHandler (env : HandlerEnv) : HandlerOut :=
  if pyStrip env.title = "" ∨ pyStrip env.presenters = "" ∨ pyStrip env.notes = "" then
    ⟨.redirect, [], none⟩
  else
    let resource_urls := parseResourceUrls env.resource_urls_text
    match deckStage env with
    | .exitR d => ⟨.redirect, d, none⟩
    | .raised d => ⟨.errorRedirect, d, none⟩
    | .cont slide disk1 =>
      match transcriptStage env disk1 with
      | .exitR d => ⟨.redirect, d, none⟩
      | .raised d => ⟨.errorRedirect, d, none⟩
      | .cont transcript disk2 =>
        afterContent env resource_urls (combineContent slide transcript) disk2

end App

/-! ## `src/utils/ai_client.py` -/

namespace AIClient

open PyStr

/-- The valid provider identifiers handled by `_initialize_client`. -/
def validProviders : List String := ["anthropic", "openai", "google", "ollama", "xai"]

/-- Credential check shared by `_init_anthropic` / `_init_openai` /
`_init_google` / `_init_xai` (src/utils/ai_client.py lines 50-86, 98-109):
`api_key = os.getenv(KEY)`; a missing or empty value raises
`ValueError(f"KEY not found in environment variables")`.  The SDK import
is assumed to succeed (the `ImportError` branch concerns the installation
environment, not the request). -/
def credCheck (env : String → Option String) (key provider : String) :
    Except String String :=
  match env key with
  | some k => if k = "" then .error (key ++ " not found in environment variables") else .ok provider
  | none => .error (key ++ " not found in environment variables")

/-- `AIClient.__init__` together with `_initialize_client`
(src/utils/ai_client.py lines 17-48): resolve the provider from the
argument or the `AI_PROVIDER` environment variable (Python `or`, so an
empty argument falls through to the environment), fail if it is absent or
empty, lowercase it, and dispatch to the per-provider initializer;
`_init_ollama` (lines 88-96) performs no credential check.  Returns the
stored provider identifier on success and the `ValueError` message on
failure. -/
def init (provider : Option String) (env : String → Option String) :
    Except String String :=
  let p0 : Option String :=
    match provider with
    | some p => if p = "" then env "AI_PROVIDER" else some p
    | none => env "AI_PROVIDER"
  match p0 with
  | none =>
    .error "AI_PROVIDER environment variable is required. Please set it to one of: anthropic, openai, google, ollama, xai"
  | some p =>
    if p = "" then
      .error "AI_PROVIDER environment variable is required. Please set it to one of: anthropic, openai, google, ollama, xai"
    else
      let prov := pyLower p
      if prov = "anthropic" then credCheck env "ANTHROPIC_API_KEY" prov
      else if prov = "openai" then credCheck env "OPENAI_API_KEY" prov
      else if prov = "google" then credCheck env "GOOGLE_API_KEY" prov
      else if prov = "ollama" then .ok prov
      else if prov = "xai" then credCheck env "XAI_API_KEY" prov
      else .error ("Unsupported AI provider: " ++ prov)

/-- The dictionary returned by `AIClient.generate` (lines 111-148). -/
structure GenResult where
  success : Bool
  text : String
  provider : String
  model : String
  error : String
deriving DecidableEq, Repr

/-- Outcome of one provider SDK call (`_generate_anthropic` etc., lines
150-248): the provider returns generated text and the model identifier
used, or raises an exception with a message. -/
structure GenSuccess where
  text : String
  model : String
deriving DecidableEq, Repr

/-- The body of one `self._generate_X(prompt, ...)` call as dispatched by
`generate`: on success each `_generate_X` returns
`{'success': True, 'text': ..., 'provider': X, 'model': ..., 'error': ''}`;
an exception propagates to `generate`'s `except` clause. -/
def providerResult (call : String → String → Except String GenSuccess)
    (provider prompt : String) : Except String (Option GenResult) :=
  match call provider prompt with
  | .ok g => .ok (some ⟨true, g.text, provider, g.model, ""⟩)
  | .error e => .error e

/-- `AIClient.generate` (src/utils/ai_client.py lines 111-148): dispatch
on the stored provider inside a `try`; any exception is caught and turned
into `{'success': False, 'error': str(e), ...}`.  The implicit
fall-through of the `if/elif` chain returns Python `None`, modelled as
`none`. -/
def generate (provider : String)
    (call : String → String → Except String GenSuccess)
    (prompt : String) : Option GenResult :=
  let body : Except String (Option GenResult) :=
    if provider = "anthropic" then providerResult call provider prompt
    else if provider = "openai" then providerResult call provider prompt
    else if provider = "google" then providerResult call provider prompt
    else if provider = "ollama" then providerResult call provider prompt
    else if provider = "xai" then providerResult call provider prompt
    else .ok none
  match body with
  | .ok r => r
  | .error e => some ⟨false, "", provider, "", e⟩

end AIClient

/-! ## Prompt construction: `src/utils/ai_analyzer.py` and
`src/utils/prompt_loader.py` -/

/-- Python truthiness of an `Optional[str]`. -/
def optStrTruthy : Option String → Bool
  | none => false
  | some s => s ≠ ""

/-- Python truthiness of an `Optional[list]`. -/
def optListTruthy {α : Type} : Option (List α) → Bool
  | none => false
  | some l => ¬ l.isEmpty

/-- The context both prompt builders receive (`title`, `presenters`,
`user_notes`, `slide_content`, `github_url`, `additional_resources`). -/
structure PromptCtx where
  title : String
  presenters : String
  user_notes : String
  slide_content : String
  github_url : Option String
  additional_resources : Option (List WebScraper.Resource)

namespace AIAnalyzer

open PyStr WebScraper

/-- `has_slides = slide_content and slide_content.strip()`
(src/utils/ai_analyzer.py line 47), as a boolean. -/
def has_slides (slide_content : String) : Bool := pyStrip slide_content ≠ ""

/-- `content_type` (line 48). -/
def content_type (slide_content : String) : String :=
  if has_slides slide_content then "presentation" else "technical content"

/-- `github_section` (lines 33-35). -/
def github_section (github_url : Option String) : String :=
  if optStrTruthy github_url then
    "- GitHub Repository: " ++ github_url.getD ""
      ++ " (contains lab guides, code samples, and related materials)\n"
  else ""

/-- One iteration of the resources loop (lines 41-44), at 1-based index
`i`. -/
def resourceBlock (i : Nat) (r : Resource) : String :=
  "\n--- Resource " ++ toString i ++ ": " ++ r.title ++ " ---\n"
    ++ "URL: " ++ r.url ++ "\n"
    ++ "Content:\n" ++ r.content ++ "\n"

/-- The accumulated per-resource blocks, starting at index `i`. -/
def resourceBlocks (i : Nat) : List Resource → String
  | [] => ""
  | r :: rest => resourceBlock i r ++ resourceBlocks (i + 1) rest

/-- `resources_section` (lines 38-44). -/
def resources_section (additional_resources : Option (List Resource)) : String :=
  if optListTruthy additional_resources then
    "\n\nADDITIONAL RESOURCES PROVIDED:\n"
      ++ resourceBlocks 1 (additional_resources.getD [])
  else ""

/-- `resources_note`, inlined in the fallback f-string (line 61):
`{"and the provided resources" if additional_resources else ""}`. -/
def resources_note (additional_resources : Option (List Resource)) : String :=
  if optListTruthy additional_resources then "and the provided resources" else ""

/-- `resource_focus`, inlined in the fallback f-string (line 61). -/
def resource_focus (slide_content : String)
    (additional_resources : Option (List Resource)) : String :=
  if ¬ has_slides slide_content ∧ optListTruthy additional_resources then
    " Focus on the information provided in the resource URLs since no slide deck was provided."
  else if optListTruthy additional_resources then
    " Consider how the additional resources (lab guides, documentation, articles, etc.) complement and expand upon the presentation content."
  else ""

/-- The header of the fallback prompt: the f-string of
`build_analysis_prompt` (lines 50-58) from `You are a ...` through
`{slide_content if has_slides else ""}{resources_section}`. -/
def headerFb (ctx : PromptCtx) : String :=
  "You are a pre-sales engineering advisor analyzing "
    ++ content_type ctx.slide_content ++ ".\n\nCONTEXT:\n- Title: "
    ++ ctx.title ++ "\n- "
    ++ (if has_slides ctx.slide_content then "Presenters" else "Authors/Sources")
    ++ ": " ++ ctx.presenters
    ++ "\n- Attendee\x27s Personal Notes: " ++ ctx.user_notes
    ++ "\n" ++ github_section ctx.github_url
    ++ "\n" ++ (if has_slides ctx.slide_content then "SLIDE CONTENT EXTRACTED:" else "")
    ++ "\n" ++ (if has_slides ctx.slide_content then ctx.slide_content else "")
    ++ resources_section ctx.additional_resources

/-- A line of the fallback f-string emitted only when `github_url` is
truthy (an empty line otherwise). -/
def ghLine (g : Bool) (s : String) : String := if g then s else ""

/-- The fixed tail of the fallback f-string (lines 62-120), parameterized
by the truthiness of `github_url`. -/
def bodyFb (g : Bool) : String :=
  "\n\nPlease structure your response in the following sections:\n\n"
    ++ "## EXECUTIVE SUMMARY\nProvide a 3-5 sentence overview of the presentation\x27s key value and relevance.\n\n"
    ++ "## KEY TECHNICAL INSIGHTS\nList 5-8 important technical concepts, technologies, or methodologies discussed:\n- [Insight 1]\n- [Insight 2]\n...\n\n"
    ++ ghLine g "## GITHUB REPOSITORY VALUE" ++ "\n"
    ++ ghLine g "If a GitHub repository was provided, analyze how the lab guides and code samples enhance the presentation:" ++ "\n"
    ++ ghLine g "- What practical value do the labs/code provide?" ++ "\n"
    ++ ghLine g "- How can these resources be used in customer demos or POCs?" ++ "\n"
    ++ ghLine g "- What technical credibility does this add to the presentation?" ++ "\n\n"
    ++ "## CLIENT VALUE CONNECTIONS\n\n"
    ++ "### How This Knowledge Helps Your Customers\nExplain 2-3 specific ways this information can solve customer problems or address their needs.\n\n"
    ++ "### Trust-Building Conversation Starters\nProvide 3-5 specific conversation starters you can use with clients to demonstrate expertise:\n- [Starter 1]\n- [Starter 2]\n...\n\n"
    ++ "### Problem-Solving Applications\nDescribe 2-3 scenarios where you can apply this knowledge to customer situations.\n\n"
    ++ ghLine g "### Hands-On Resources for Customers" ++ "\n"
    ++ ghLine g "If GitHub repo is provided, suggest 2-3 ways to leverage the lab guides or code samples with customers:" ++ "\n"
    ++ ghLine g "- Demo opportunities" ++ "\n"
    ++ ghLine g "- POC accelerators" ++ "\n"
    ++ ghLine g "- Customer self-service resources" ++ "\n\n"
    ++ "## PRE-SALES OPPORTUNITIES\n\n"
    ++ "### Customer Tracking & Relationship Building\nExplain how this knowledge fits into ongoing customer relationship development.\n\n"
    ++ "### Actionable Follow-Up Strategies\nProvide 3-4 specific actions to take based on this presentation:\n- [ ] [Action 1]\n- [ ] [Action 2]\n...\n\n"
    ++ "### Relevant Customer Segments\nIdentify which types of customers or industries would most benefit from this knowledge.\n\n"
    ++ "## INTELLIGENT FOLLOW-UP QUESTIONS\nList 5-7 questions that will help you deepen your understanding and identify sales opportunities:\n1. [Question 1]\n2. [Question 2]\n...\n\n"
    ++ "Keep your response practical, actionable, and focused on pre-sales value."

/-- `build_analysis_prompt` (src/utils/ai_analyzer.py lines 16-122): the
hardcoded fallback prompt used when the template id is unresolvable. -/
def build_analysis_prompt (ctx : PromptCtx) : String :=
  headerFb ctx
    ++ "\n\nYOUR TASK:\nAnalyze this " ++ content_type ctx.slide_content
    ++ resources_note ctx.additional_resources
    ++ " and provide insights that help a pre-sales engineer leverage this knowledge to better serve their clients and build trust."
    ++ resource_focus ctx.slide_content ctx.additional_resources
    ++ bodyFb (optStrTruthy ctx.github_url)

end AIAnalyzer

namespace PromptLoader

open PyStr WebScraper

/-- A subsection of a template section (`{'title': ..., 'instruction'?}`),
as consumed by `build_section`. -/
structure SubSection where
  title : String
  instruction : Option String

/-- A template section (`{'title'?, 'instruction'?, 'subsections'?}`). -/
structure TmplSection where
  title : Option String
  instruction : Option String
  subsections : Option (List SubSection)

/-- A loaded prompt template (the JSON dict returned by
`load_prompt_template`), restricted to the keys `build_prompt_from_template`
reads. -/
structure PromptTemplate where
  name : Option String
  role : Option String
  task_description : Option String
  sections : List TmplSection
  closing : Option String

/-- The lines a subsection contributes in `build_section`
(src/utils/prompt_loader.py lines 95-99). -/
def subLines (sub : SubSection) : List String :=
  ("\n### " ++ sub.title) ::
    (match sub.instruction with
     | some i => [i]
     | none => [])

/-- `build_section` (src/utils/prompt_loader.py lines 81-101), always
called with `indent = 0`, so the title prefix is empty. -/
def build_section (s : TmplSection) : String :=
  joinWith "\n"
    ((match s.title with
      | some t => ["\n## " ++ t]
      | none => []) ++
     (match s.instruction with
      | some i => [i]
      | none => []) ++
     (match s.subsections with
      | some subs => subs.flatMap subLines
      | none => []))

/-- `has_slides` (src/utils/prompt_loader.py line 129). -/
def has_slides (slide_content : String) : Bool := pyStrip slide_content ≠ ""

/-- `content_type` (line 130). -/
def content_type (slide_content : String) : String :=
  if has_slides slide_content then "presentation" else "technical content"

/-- `github_section` (lines 133-135). -/
def github_section (github_url : Option String) : String :=
  if optStrTruthy github_url then
    "- GitHub Repository: " ++ github_url.getD ""
      ++ " (contains lab guides, code samples, and related materials)\n"
  else ""

/-- One iteration of the resources loop (lines 141-144). -/
def resourceBlock (i : Nat) (r : Resource) : String :=
  "\n--- Resource " ++ toString i ++ ": " ++ r.title ++ " ---\n"
    ++ "URL: " ++ r.url ++ "\n"
    ++ "Content:\n" ++ r.content ++ "\n"

/-- The accumulated per-resource blocks, starting at index `i`. -/
def resourceBlocks (i : Nat) : List Resource → String
  | [] => ""
  | r :: rest => resourceBlock i r ++ resourceBlocks (i + 1) rest

/-- `resources_section` (lines 138-144). -/
def resources_section (additional_resources : Option (List Resource)) : String :=
  if optListTruthy additional_resources then
    "\n\nADDITIONAL RESOURCES PROVIDED:\n"
      ++ resourceBlocks 1 (additional_resources.getD [])
  else ""

/-- `resources_note` (line 147). -/
def resources_note (additional_resources : Option (List Resource)) : String :=
  if optListTruthy additional_resources then "and the provided resources" else ""

/-- `resource_focus` (lines 148-152). -/
def resource_focus (slide_content : String)
    (additional_resources : Option (List Resource)) : String :=
  if ¬ has_slides slide_content ∧ optListTruthy additional_resources then
    " Focus on the information provided in the resource URLs since no slide deck was provided."
  else if optListTruthy additional_resources then
    " Consider how the additional resources (lab guides, documentation, articles, etc.) complement and expand upon the presentation content."
  else ""

/-- `task_description` (lines 154-158): `str.format` substitution of the
three precomputed values, modelled as textual replacement of the three
placeholders. -/
def task_description (tmpl : PromptTemplate) (ctx : PromptCtx) : String :=
  (((tmpl.task_description.getD "").replace "{content_type}" (content_type ctx.slide_content)).replace
      "{resources_note}" (resources_note ctx.additional_resources)).replace
    "{resource_focus}" (resource_focus ctx.slide_content ctx.additional_resources)

/-- The `prompt_lines` list after the header construction
(src/utils/prompt_loader.py lines 161-176): the fixed header lines, then
the slide lines when slides are present, then the resources section when
it is non-empty. -/
def promptLinesHeader (tmpl : PromptTemplate) (ctx : PromptCtx) : List String :=
  ["You are a " ++ tmpl.role.getD "technical advisor" ++ " analyzing "
     ++ content_type ctx.slide_content ++ ".",
   "",
   "CONTEXT:",
   "- Title: " ++ ctx.title,
   "- " ++ (if has_slides ctx.slide_content then "Presenters" else "Authors/Sources")
     ++ ": " ++ ctx.presenters,
   "- Attendee\x27s Personal Notes: " ++ ctx.user_notes,
   github_section ctx.github_url]
  ++ (if has_slides ctx.slide_content then
        ["SLIDE CONTENT EXTRACTED:", ctx.slide_content]
      else [])
  ++ (if resources_section ctx.additional_resources ≠ "" then
        [resources_section ctx.additional_resources]
      else [])

/-- The full `prompt_lines` list (lines 161-191). -/
def promptLines (tmpl : PromptTemplate) (ctx : PromptCtx) : List String :=
  promptLinesHeader tmpl ctx
    ++ ["", "YOUR TASK:", task_description tmpl ctx, "",
        "Please structure your response in the following sections:"]
    ++ tmpl.sections.map build_section
    ++ (match tmpl.closing with
        | some c => ["", c]
        | none => [])

/-- `build_prompt_from_template` (src/utils/prompt_loader.py lines
104-193): `'\n'.join(prompt_lines)`. -/
def build_prompt_from_template (tmpl : PromptTemplate) (ctx : PromptCtx) : String :=
  joinWith "\n" (promptLines tmpl ctx)

/-- The header block of the template-driven prompt: the join of the lines
built before `YOUR TASK:` is appended. -/
def headerTmpl (tmpl : PromptTemplate) (ctx : PromptCtx) : String :=
  joinWith "\n" (promptLinesHeader tmpl ctx)

end PromptLoader

/-- The prompt selection in `analyze_presentation`
(src/utils/ai_analyzer.py lines 159-167): an unresolvable template id
falls back to `build_analysis_prompt`, otherwise the template drives the
prompt. -/
def promptFor (template : Option PromptLoader.PromptTemplate) (ctx : PromptCtx) : String :=
  match template with
  | none => AIAnalyzer.build_analysis_prompt ctx
  | some t => PromptLoader.build_prompt_from_template t ctx

/-! ## Concrete test inputs used by counterexamples and witnesses -/

/-- A line already in the output shape of the VTT cleaner: stripped,
non-empty, not a `WEBVTT` header, no `-->` timing marker, not a `NOTE`
annotation, and not a bare digit-initial cue identifier (no colon). -/
def isCleanVttLine (l : List Char) : Bool :=
  PyStr.chTrim l = l ∧ ¬ l.isEmpty ∧ ¬ ("WEBVTT".data).isPrefixOf l
    ∧ ¬ PyStr.chHasInfix ("-->".data) l ∧ ¬ ("NOTE".data).isPrefixOf l
    ∧ ¬ ((l.headD ' ').isDigit ∧ ¬ l.contains ':')

/-- A three-URL fetch scenario: `http://a` and `http://c` succeed,
`http://b` times out. -/
def pageOf3 (u : String) : WebScraper.PageOutcome :=
  if u = "http://a" then .ok (some "A") "alpha"
  else if u = "http://c" then .ok none "gamma"
  else .failure "Request timed out"

/-- A baseline `/analyze` request: required fields filled, no deck, no
transcript, no resource URLs, all external calls healthy, every fetch
timing out. -/
def envBase : App.HandlerEnv :=
  ⟨"T", "P", "N", "", "", "presales_engineer",
   "none", none, false, ⟨"", none⟩, "", ⟨false, "", "", ""⟩, ⟨"", none⟩,
   "none", none, false, ⟨"", none⟩, "", ⟨false, "", "", ""⟩, ⟨"", none⟩,
   fun _ => .failure "Request timed out",
   true, false, true⟩

/-- A request with no deck and no transcript whose single resource URL
times out. -/
def envC2 : App.HandlerEnv :=
  { envBase with resource_urls_text := "http://u" }

/-- A request that uploads a valid deck and whose output-file generation
raises an exception. -/
def envC7 : App.HandlerEnv :=
  { envBase with
      deck_source := "upload"
      deck_file := some "f.pdf"
      deck_extract := ⟨"X", none⟩
      outputs_raises := true }

/-- A prompt context with no slides, no GitHub URL and no resources. -/
def ctx9 : PromptCtx := ⟨"T", "P", "N", "", none, none⟩

/-- A prompt context with slide content but no GitHub URL and no
resources. -/
def ctx9w : PromptCtx := ⟨"T", "P", "N", "s", none, none⟩

/-- A template whose role coincides with the fallback builder's hardcoded
role. -/
def tmpl9 : PromptLoader.PromptTemplate :=
  ⟨none, some "pre-sales engineering advisor", none, [], none⟩

/-! ## Supporting lemmas for the string primitives -/

namespace PyStr

/-- `chSplit` always returns at least one part. -/
theorem chSplit_ne_nil (sep : Char) (cs : List Char) : chSplit sep cs ≠ [] := by
  induction cs with
  | nil => simp [chSplit]
  | cons c rest ih =>
    simp only [chSplit]
    split
    · simp
    · cases h : chSplit sep rest with
      | nil => simp
      | cons h t => simp

/-- Joining the parts of a split restores the original list. -/
theorem chJoin_chSplit (sep : Char) (cs : List Char) :
    chJoin sep (chSplit sep cs) = cs := by
  induction cs with
  | nil => simp [chSplit, chJoin]
  | cons c rest ih =>
    simp only [chSplit]
    split
    · rename_i hc
      cases h : chSplit sep rest with
      | nil => exact absurd h (chSplit_ne_nil sep rest)
      | cons h t =>
        simp only [chJoin]
        rw [h] at ih
        simp [chJoin] at ih ⊢
        rw [ih, hc]
        exact ⟨rfl, rfl⟩
    · cases h : chSplit sep rest with
      | nil => exact absurd h (chSplit_ne_nil sep rest)
      | cons hd tl =>
        rw [h] at ih
        cases tl with
        | nil =>
          simp only [chJoin] at ih ⊢
          rw [ih]
        | cons hd2 tl2 =>
          simp only [chJoin] at ih ⊢
          rw [List.cons_append, ih]

/-- A list whose head is not stripped and whose last element is not
stripped is unchanged by `chTrim`. -/
theorem chTrim_eq_self (cs : List Char)
    (h1 : cs.dropWhile isWs = cs)
    (h2 : cs.reverse.dropWhile isWs = cs.reverse) :
    chTrim cs = cs := by
  simp [chTrim, h1, h2]

end PyStr

/-! ## Supporting lemmas for the AI client -/

namespace AIClient

/-- A successful credential check returns the provider it was given. -/
theorem credCheck_ok (env : String → Option String) (key prov p : String)
    (h : credCheck env key prov = .ok p) : p = prov := by
  unfold credCheck at h
  split at h
  · split at h
    · exact absurd h (by simp)
    · simpa using h.symm
  · exact absurd h (by simp)

/-- Dispatch for `anthropic` reduces to its credential check. -/
theorem init_anthropic (env : String → Option String) :
    init (some "anthropic") env = credCheck env "ANTHROPIC_API_KEY" "anthropic" := rfl

/-- Dispatch for `openai` reduces to its credential check. -/
theorem init_openai (env : String → Option String) :
    init (some "openai") env = credCheck env "OPENAI_API_KEY" "openai" := rfl

/-- Dispatch for `google` reduces to its credential check. -/
theorem init_google (env : String → Option String) :
    init (some "google") env = credCheck env "GOOGLE_API_KEY" "google" := rfl

/-- Dispatch for `xai` reduces to its credential check. -/
theorem init_xai (env : String → Option String) :
    init (some "xai") env = credCheck env "XAI_API_KEY" "xai" := rfl

/-- A present, non-empty credential passes the check. -/
theorem credCheck_some (env : String → Option String) (key prov k : String)
    (h : env key = some k) (hk : k ≠ "") :
    credCheck env key prov = .ok prov := by
  unfold credCheck
  rw [h]
  simp [hk]

/-- An absent credential fails the check, naming the variable. -/
theorem credCheck_none (env : String → Option String) (key prov : String)
    (h : env key = none) :
    credCheck env key prov = .error (key ++ " not found in environment variables") := by
  unfold credCheck
  rw [h]

end AIClient

namespace AIClient

/-- Construction only succeeds on the five handled identifiers. -/
theorem init_ok_mem (provider : Option String) (env : String → Option String)
    (p : String) (h : init provider env = .ok p) : p ∈ validProviders := by
  unfold init at h
  dsimp only at h
  split at h
  · exact absurd h (by simp)
  · split at h
    · exact absurd h (by simp)
    · split at h
      · rename_i h1
        rw [credCheck_ok _ _ _ _ h, h1]
        simp [validProviders]
      · split at h
        · rename_i h2
          rw [credCheck_ok _ _ _ _ h, h2]
          simp [validProviders]
        · split at h
          · rename_i h3
            rw [credCheck_ok _ _ _ _ h, h3]
            simp [validProviders]
          · split at h
            · rename_i h4
              simp only [Except.ok.injEq] at h
              rw [← h, h4]
              simp [validProviders]
            · split at h
              · rename_i h5
                rw [credCheck_ok _ _ _ _ h, h5]
                simp [validProviders]
              · exact absurd h (by simp)

end AIClient

/-! ## Claim C1 — provider construction errors -/

/-- Claim C1 as stated is false on the code: `ollama` is a valid provider
identifier with no corresponding credential check, so construction with
`ollama` and every credential environment variable absent succeeds rather
than raising; and construction with the unrecognized identifier `nope`
raises `Unsupported AI provider: nope`, a message that does not name the
valid set (it does not even contain the identifier `openai`). -/
theorem c1_counterexample :
    AIClient.init (some "ollama") (fun _ => none) = Except.ok "ollama" ∧
    AIClient.init (some "nope") (fun _ => none)
      = Except.error "Unsupported AI provider: nope" ∧
    PyStr.pyIn "openai" "Unsupported AI provider: nope" = false :=
  ⟨rfl, rfl, rfl⟩

/-- Claim C1 (amended): construction with each of `anthropic`, `openai`,
`google`, `xai` succeeds when its credential variable is present and
non-empty and raises an error naming that specific variable when it is
absent; construction with `ollama` succeeds with no credential at all; a
missing provider identifier raises an error naming the valid set; and any
other identifier raises an error naming the rejected identifier (not the
valid set).  No such failure is deferred to call time. -/
theorem c1_provider_errors_amended (env : String → Option String) :
    (∀ k, env "ANTHROPIC_API_KEY" = some k → k ≠ "" →
      AIClient.init (some "anthropic") env = .ok "anthropic") ∧
    (∀ k, env "OPENAI_API_KEY" = some k → k ≠ "" →
      AIClient.init (some "openai") env = .ok "openai") ∧
    (∀ k, env "GOOGLE_API_KEY" = some k → k ≠ "" →
      AIClient.init (some "google") env = .ok "google") ∧
    (∀ k, env "XAI_API_KEY" = some k → k ≠ "" →
      AIClient.init (some "xai") env = .ok "xai") ∧
    AIClient.init (some "ollama") env = .ok "ollama" ∧
    (env "ANTHROPIC_API_KEY" = none → AIClient.init (some "anthropic") env
      = .error "ANTHROPIC_API_KEY not found in environment variables") ∧
    (env "OPENAI_API_KEY" = none → AIClient.init (some "openai") env
      = .error "OPENAI_API_KEY not found in environment variables") ∧
    (env "GOOGLE_API_KEY" = none → AIClient.init (some "google") env
      = .error "GOOGLE_API_KEY not found in environment variables") ∧
    (env "XAI_API_KEY" = none → AIClient.init (some "xai") env
      = .error "XAI_API_KEY not found in environment variables") ∧
    (env "AI_PROVIDER" = none → AIClient.init none env
      = .error "AI_PROVIDER environment variable is required. Please set it to one of: anthropic, openai, google, ollama, xai") ∧
    (∀ p, p ≠ "" → PyStr.pyLower p ∉ AIClient.validProviders →
      AIClient.init (some p) env
        = .error ("Unsupported AI provider: " ++ PyStr.pyLower p)) := by
  refine ⟨?_, ?_, ?_, ?_, ?_, ?_, ?_, ?_, ?_, ?_, ?_⟩
  · intro k h hk
    rw [AIClient.init_anthropic, AIClient.credCheck_some env _ _ k h hk]
  · intro k h hk
    rw [AIClient.init_openai, AIClient.credCheck_some env _ _ k h hk]
  · intro k h hk
    rw [AIClient.init_google, AIClient.credCheck_some env _ _ k h hk]
  · intro k h hk
    rw [AIClient.init_xai, AIClient.credCheck_some env _ _ k h hk]
  · rfl
  · intro h
    rw [AIClient.init_anthropic, AIClient.credCheck_none env _ _ h]
    rfl
  · intro h
    rw [AIClient.init_openai, AIClient.credCheck_none env _ _ h]
    rfl
  · intro h
    rw [AIClient.init_google, AIClient.credCheck_none env _ _ h]
    rfl
  · intro h
    rw [AIClient.init_xai, AIClient.credCheck_none env _ _ h]
    rfl
  · intro h
    unfold AIClient.init
    rw [h]
  · intro p hp hmem
    simp only [AIClient.validProviders, List.mem_cons, List.mem_singleton,
      not_or, List.not_mem_nil] at hmem
    obtain ⟨h1, h2, h3, h4, h5, -⟩ := hmem
    unfold AIClient.init
    simp only [hp, if_false, ite_false, if_neg hp]
    simp [h1, h2, h3, h4, h5]

/-- Witness for the amended C1: with the anthropic credential set,
construction with `anthropic` succeeds. -/
theorem c1_provider_errors_witness :
    AIClient.init (some "anthropic")
      (fun k => if k = "ANTHROPIC_API_KEY" then some "sk-test" else none)
      = .ok "anthropic" :=
  (c1_provider_errors_amended
      (fun k => if k = "ANTHROPIC_API_KEY" then some "sk-test" else none)).1
    "sk-test" rfl (by decide)

/-! ## Claim C10 — generate never falls through for a constructed client -/

/-- Claim C10: for every client whose construction succeeded, the stored
provider is one of the five handled identifiers, so `generate` always
takes one of the dispatch branches and returns a result dictionary — the
implicit `None` fall-through is unreachable. -/
theorem c10_generate_total (provider : Option String)
    (env : String → Option String)
    (call : String → String → Except String AIClient.GenSuccess)
    (prompt p : String)
    (h : AIClient.init provider env = .ok p) :
    (AIClient.generate p call prompt).isSome = true := by
  have hmem := AIClient.init_ok_mem provider env p h
  simp only [AIClient.validProviders, List.mem_cons, List.mem_singleton,
    List.not_mem_nil, or_false] at hmem
  rcases hmem with h1 | h1 | h1 | h1 | h1 <;>
    (cases hcall : call p prompt <;>
      (subst h1
       simp [AIClient.generate, AIClient.providerResult, hcall]))

/-- Witness for C10: a concretely constructed `ollama` client's `generate`
returns a result. -/
theorem c10_generate_total_witness :
    (AIClient.generate "ollama" (fun _ _ => Except.error "down") "hi").isSome = true :=
  c10_generate_total (some "ollama") (fun _ => none)
    (fun _ _ => Except.error "down") "hi" "ollama" rfl

/-! ## Claim C6 — generation exceptions are caught -/

/-- Claim C6: for every constructed client and every prompt, if the
underlying provider call raises, `generate` catches the exception and
returns `{'success': False, 'error': str(e), ...}` instead of
propagating it. -/
theorem c6_generate_catches (provider : Option String)
    (env : String → Option String)
    (call : String → String → Except String AIClient.GenSuccess)
    (prompt p e : String)
    (hinit : AIClient.init provider env = .ok p)
    (hcall : call p prompt = .error e) :
    AIClient.generate p call prompt = some ⟨false, "", p, "", e⟩ := by
  have hmem := AIClient.init_ok_mem provider env p hinit
  simp only [AIClient.validProviders, List.mem_cons, List.mem_singleton,
    List.not_mem_nil, or_false] at hmem
  rcases hmem with h1 | h1 | h1 | h1 | h1 <;>
    (subst h1
     simp only [AIClient.generate, AIClient.providerResult]
     simp [hcall])

/-- Witness for C6: a constructed `ollama` client whose SDK call raises
`boom` returns the caught-failure dictionary. -/
theorem c6_generate_catches_witness :
    AIClient.generate "ollama" (fun _ _ => Except.error "boom") "hi"
      = some ⟨false, "", "ollama", "", "boom"⟩ :=
  c6_generate_catches (some "ollama") (fun _ => none)
    (fun _ _ => Except.error "boom") "hi" "ollama" "boom" rfl rfl

/-! ## Claim C3 — independent per-URL fetching -/

/-- The fetch loop processes URLs independently: successes become
resources in input order, failures are appended verbatim in input
order. -/
theorem fetchLoop_eq (pageOf : String → WebScraper.PageOutcome) (urls : List String) :
    WebScraper.fetchLoop pageOf urls
      = (urls.filterMap (fun u =>
           let r := WebScraper.fetch_url_content (pageOf (PyStr.pyStrip u)) (PyStr.pyStrip u)
           if r.success then some ⟨r.url, r.title, r.content⟩ else none),
         urls.filter (fun u =>
           !(WebScraper.fetch_url_content (pageOf (PyStr.pyStrip u)) (PyStr.pyStrip u)).success)) := by
  induction urls with
  | nil => rfl
  | cons u rest ih =>
    simp only [WebScraper.fetchLoop, ih, List.filterMap_cons, List.filter_cons]
    by_cases hs : (WebScraper.fetch_url_content (pageOf (PyStr.pyStrip u)) (PyStr.pyStrip u)).success
    · simp [hs]
    · simp [hs]

/-- Claim C3: `fetch_multiple_urls` processes each URL independently — the
resources are exactly the successful URLs' fetch results in input order,
the failed URLs are recorded verbatim in input order, and the batch
succeeds exactly when some resource was produced or the input was empty;
in the concrete three-URL scenario where only `http://b` times out it
returns the two successes in order, one failed URL, and `success=true`. -/
theorem c3_fetch_batch :
    (∀ (pageOf : String → WebScraper.PageOutcome) (urls : List String),
      (WebScraper.fetch_multiple_urls pageOf urls).resources
        = urls.filterMap (fun u =>
            let r := WebScraper.fetch_url_content (pageOf (PyStr.pyStrip u)) (PyStr.pyStrip u)
            if r.success then some ⟨r.url, r.title, r.content⟩ else none) ∧
      (WebScraper.fetch_multiple_urls pageOf urls).failed_urls
        = urls.filter (fun u =>
            !(WebScraper.fetch_url_content (pageOf (PyStr.pyStrip u)) (PyStr.pyStrip u)).success) ∧
      ((WebScraper.fetch_multiple_urls pageOf urls).success = true ↔
        ((WebScraper.fetch_multiple_urls pageOf urls).resources ≠ [] ∨ urls = []))) ∧
    WebScraper.fetch_multiple_urls pageOf3 ["http://a", "http://b", "http://c"]
      = ⟨true,
         [⟨"http://a", "A", "alpha"⟩, ⟨"http://c", "http://c", "gamma"⟩],
         ["http://b"],
         "Successfully fetched 2 resource(s) (1 failed)"⟩ := by
  constructor
  · intro pageOf urls
    by_cases hu : urls = []
    · subst hu
      simp [WebScraper.fetch_multiple_urls]
    · simp only [WebScraper.fetch_multiple_urls, if_neg hu, fetchLoop_eq]
      simp [hu, List.length_pos]
  · rfl

/-! ## Claim C8 — fetched content clean-up and cap -/

/-- Splitting a run of newlines yields that many empty lines (Python
`splitlines` semantics: the trailing newline opens no extra line). -/
theorem chSplitLines_replicate_nl (n : Nat) :
    PyStr.chSplitLines (List.replicate n '\n') = List.replicate n [] := by
  induction n with
  | zero => rfl
  | succ m ih =>
    rw [List.replicate_succ]
    simp [PyStr.chSplitLines, ih, List.replicate_succ]

/-- Unfolding equation for `chSplitLines` on a cons cell. -/
theorem chSplitLines_cons (c : Char) (rest : List Char) :
    PyStr.chSplitLines (c :: rest)
      = if c = '\n' then [] :: PyStr.chSplitLines rest
        else
          match PyStr.chSplitLines rest with
          | [] => [[c]]
          | h :: t => (c :: h) :: t := rfl

/-- Splitting a non-empty run of a non-newline character yields the one
line. -/
theorem chSplitLines_replicate (n : Nat) (c : Char) (hc : c ≠ '\n') (hn : 0 < n) :
    PyStr.chSplitLines (List.replicate n c) = [List.replicate n c] := by
  induction n with
  | zero => exact absurd hn (by omega)
  | succ m ih =>
    rw [List.replicate_succ, chSplitLines_cons, if_neg hc]
    cases m with
    | zero => rfl
    | succ k => rw [ih (Nat.succ_pos k)]

/-- Stripping a run of a non-whitespace character is the identity. -/
theorem chTrim_replicate (n : Nat) (c : Char) (hc : PyStr.isWs c = false) :
    PyStr.chTrim (List.replicate n c) = List.replicate n c := by
  cases n with
  | zero => rfl
  | succ m =>
    have hrep : (List.replicate (m + 1) c).dropWhile PyStr.isWs
        = List.replicate (m + 1) c := by
      rw [List.replicate_succ, List.dropWhile_cons]
      simp [hc]
    unfold PyStr.chTrim
    rw [hrep, List.reverse_replicate, hrep, List.reverse_replicate]

/-- An all-newline extracted text cleans to nothing. -/
theorem scrapeLines_replicate_nl (n : Nat) :
    WebScraper.scrapeLines (List.replicate n '\n') = [] := by
  unfold WebScraper.scrapeLines
  rw [chSplitLines_replicate_nl, List.map_replicate]
  simp [PyStr.chTrim, List.filter_replicate]

/-- The content length for an extracted text that is a run of a single
benign character: the cleaned text is the run itself, capped at 10,000. -/
theorem c8_cap_replicate (n : Nat) (c : Char) (hc1 : c ≠ '\n')
    (hc2 : PyStr.isWs c = false) (hn : 0 < n) :
    (WebScraper.fetch_url_content
        (.ok none (String.mk (List.replicate n c))) "http://u").content.length
      = min 10000 n := by
  have hne : (List.replicate n c).isEmpty = false := by
    cases n with
    | zero => exact absurd hn (by omega)
    | succ m =>
      rw [List.replicate_succ]
      rfl
  simp only [WebScraper.fetch_url_content, WebScraper.scrapeLines]
  rw [chSplitLines_replicate n c hc1 hn, List.map_cons, List.map_nil,
    chTrim_replicate n c hc2, List.filter_cons]
  simp only [hne, decide_not, Bool.not_false, if_true, List.filter_nil, PyStr.chJoin]
  show (List.take 10000 (List.replicate n c)).length = min 10000 n
  rw [List.length_take, List.length_replicate]

/-- Claim C8 as stated is false on the code: the 10,000-character cap
applies to the cleaned text, not to the raw extracted text, so a URL
whose extracted text is 50,000 characters long (here: 50,000 newlines)
can yield a content field of 0 characters instead of exactly 10,000. -/
theorem c8_counterexample :
    (String.mk (List.replicate 50000 '\n')).length = 50000 ∧
    (WebScraper.fetch_url_content
        (.ok none (String.mk (List.replicate 50000 '\n'))) "http://u").content.length
      = 0 := by
  constructor
  · show (List.replicate 50000 '\n').length = 50000
    exact List.length_replicate _ _
  · simp only [WebScraper.fetch_url_content]
    rw [scrapeLines_replicate_nl]
    rfl

/-- Claim C8 (amended): for every successfully fetched URL the stored
content is the line-trimmed, blank-line-free extracted text capped at
10,000 characters — its length is the minimum of 10,000 and the cleaned
text's length; in particular a URL whose extracted text is 50,000
non-whitespace characters on one line yields exactly 10,000 characters. -/
theorem c8_content_cap_amended :
    (∀ (title? : Option String) (text url : String),
      (WebScraper.fetch_url_content (.ok title? text) url).content.length
        = min 10000 (PyStr.chJoin '\n' (WebScraper.scrapeLines text.data)).length) ∧
    (WebScraper.fetch_url_content
        (.ok none (String.mk (List.replicate 50000 'a'))) "http://u").content.length
      = 10000 := by
  constructor
  · intro title? text url
    simp only [WebScraper.fetch_url_content]
    show (List.take 10000 (PyStr.chJoin '\n' (WebScraper.scrapeLines text.data))).length
      = min 10000 (PyStr.chJoin '\n' (WebScraper.scrapeLines text.data)).length
    rw [List.length_take]
  · rw [c8_cap_replicate 50000 'a' (by decide) (by decide) (by norm_num)]
    norm_num

/-! ## Claim C5 — VTT cleaning idempotence -/

/-- On lines already in its own output shape, the VTT loop keeps every
line, whatever the incoming `skip_next` flag. -/
theorem vttLoop_id (lines : List (List Char)) (skipNext : Bool)
    (h : ∀ l ∈ lines, isCleanVttLine l = true) :
    DocumentParser.vttLoop lines skipNext = lines := by
  induction lines generalizing skipNext with
  | nil => rfl
  | cons l rest ih =>
    have hl := h l (by simp)
    have hrest : ∀ x ∈ rest, isCleanVttLine x = true := fun x hx => h x (by simp [hx])
    simp only [isCleanVttLine, Bool.and_eq_true, decide_eq_true_eq] at hl
    obtain ⟨htrim, hne, hweb, hinfix, hnote, hcue⟩ := hl
    simp only [DocumentParser.vttLoop]
    rw [htrim]
    rw [if_neg hweb, if_neg hinfix, if_neg ?hcue, if_pos ⟨hne, hnote⟩, ih false hrest]
    case hcue =>
      rintro ⟨-, -, hdig, hcol⟩
      exact hcue ⟨hdig, hcol⟩

/-- Claim C5 as stated is false on the code: `2` is itself an output of
the VTT cleaner (from the input `1\n2`), contains no `WEBVTT` header and
no `-->` timing line, yet the cleaner maps it to the empty string — the
bare-digit cue-identifier rule re-deletes it, so the cleaning step is not
idempotent on its own output. -/
theorem c5_counterexample :
    DocumentParser.cleanVtt "1\n2" = "2" ∧
    DocumentParser.cleanVtt "2" = "" ∧
    PyStr.pyStartsWith "WEBVTT" "2" = false ∧
    PyStr.pyIn "-->" "2" = false :=
  ⟨rfl, rfl, rfl, rfl⟩

/-- Claim C5 (amended): the VTT cleaner is the identity on text whose
every line is stripped, non-empty, not a `WEBVTT` header, free of `-->`,
not a `NOTE` annotation, and not a bare digit-initial colon-free cue
identifier.  (The last condition is necessary: already-cleaned text in
the sense of the claim — no header, no timing lines — is not enough.) -/
theorem c5_vtt_idempotent_amended (content : String)
    (h : ∀ l ∈ PyStr.chSplit '\n' content.data, isCleanVttLine l = true) :
    DocumentParser.cleanVtt content = content := by
  unfold DocumentParser.cleanVtt
  rw [vttLoop_id _ _ h, PyStr.chJoin_chSplit]

/-- Witness for the amended C5: a two-line plain transcript is fixed by
the cleaner. -/
theorem c5_vtt_idempotent_witness :
    DocumentParser.cleanVtt "hello\nworld" = "hello\nworld" :=
  c5_vtt_idempotent_amended "hello\nworld" (by decide)

/-! ## Claim C4 — deck-then-transcript combination -/

/-- Claim C4: when both sources are non-empty the combined text is the
labeled deck block, a blank line, then the labeled transcript block (the
order is fixed by the code, independent of submission order); a missing
source contributes no section at all. -/
theorem c4_combined_order (slide transcript : String) :
    (slide ≠ "" → transcript ≠ "" →
      App.combineContent slide transcript
        = ("=== SLIDE DECK CONTENT ===\n\n" ++ slide) ++ "\n\n"
            ++ ("=== PRESENTATION TRANSCRIPT ===\n\n" ++ transcript)) ∧
    (slide = "" →
      App.combineContent slide transcript
        = if transcript = "" then ""
          else "=== PRESENTATION TRANSCRIPT ===\n\n" ++ transcript) ∧
    (transcript = "" →
      App.combineContent slide transcript
        = if slide = "" then ""
          else "=== SLIDE DECK CONTENT ===\n\n" ++ slide) := by
  refine ⟨?_, ?_, ?_⟩
  · intro hs ht
    simp only [App.combineContent, if_pos hs, if_pos ht, List.cons_append,
      List.nil_append]
    rw [if_pos (by simp)]
    rfl
  · intro hs
    subst hs
    simp only [App.combineContent]
    by_cases ht : transcript = ""
    · subst ht
      rfl
    · simp [ht, PyStr.joinWith]
  · intro ht
    subst ht
    simp only [App.combineContent]
    by_cases hs : slide = ""
    · subst hs
      rfl
    · simp [hs, PyStr.joinWith]

/-- Witness for C4: concrete deck and transcript texts combine in the
fixed order with labeled sections. -/
theorem c4_combined_order_witness :
    App.combineContent "a" "b"
      = "=== SLIDE DECK CONTENT ===\n\na\n\n=== PRESENTATION TRANSCRIPT ===\n\nb" := by
  rw [(c4_combined_order "a" "b").1 (by decide) (by decide)]
  rfl

/-! ## Claims C2 and C7 — the `/analyze` handler -/

/-- If the handler tail invoked `analyze_presentation`, the passed slide
content is the combined text and the at-least-one-source gate had passed
(combined text non-empty or a non-empty parsed URL list). -/
theorem afterContent_call (env : App.HandlerEnv) (urls : List String)
    (combined : String) (disk : List String) (c : App.AnalyzeCall)
    (h : (App.afterContent env urls combined disk).call = some c) :
    c.slide_content = combined ∧ (combined ≠ "" ∨ urls ≠ []) := by
  simp only [App.afterContent] at h
  split at h
  · simp at h
  · rename_i hg
    have hc : c.slide_content = combined := by
      split at h
      · dsimp only at h
        injection h with h2
        subst h2
        rfl
      · split at h
        · dsimp only at h
          injection h with h2
          subst h2
          rfl
        · split at h
          · dsimp only at h
            injection h with h2
            subst h2
            rfl
          · dsimp only at h
            injection h with h2
            subst h2
            rfl
    exact ⟨hc, by tauto⟩

/-- Every exit of the handler tail either goes through the outer
exception path or leaves no temporary file on disk. -/
theorem afterContent_disk (env : App.HandlerEnv) (urls : List String)
    (combined : String) (disk : List String) :
    (App.afterContent env urls combined disk).exit = App.ExitKind.errorRedirect ∨
    (App.afterContent env urls combined disk).disk = [] := by
  simp only [App.afterContent]
  repeat' split
  all_goals simp [App.cleanupAll]

/-- Every early return of the deck stage leaves no file on disk (nothing
is recorded before the two cleanup-free returns fire). -/
theorem deckStage_exitR (env : App.HandlerEnv) (d : List String)
    (h : App.deckStage env = .exitR d) : d = [] := by
  simp only [App.deckStage] at h
  repeat' split at h
  all_goals simp_all [App.cleanupAll]

/-- Every early return of the transcript stage runs the cleanup loop
first, leaving no file on disk. -/
theorem transcriptStage_exitR (env : App.HandlerEnv) (disk : List String)
    (d : List String) (h : App.transcriptStage env disk = .exitR d) : d = [] := by
  simp only [App.transcriptStage] at h
  repeat' split at h
  all_goals simp_all [App.cleanupAll]

/-- Every handler exit either goes through the outer exception path or
leaves no temporary file on disk. -/
theorem analyzeHandler_cleanup (env : App.HandlerEnv) :
    (App.analyzeHandler env).exit = App.ExitKind.errorRedirect ∨
    (App.analyzeHandler env).disk = [] := by
  simp only [App.analyzeHandler]
  split
  · simp
  · rcases hd : App.deckStage env with d | d | ⟨slide, disk1⟩
    · simp [deckStage_exitR env d hd]
    · simp
    · dsimp only
      rcases ht : App.transcriptStage env disk1 with d | d | ⟨transcript, disk2⟩
      · simp [transcriptStage_exitR env disk1 d ht]
      · simp
      · dsimp only
        exact afterContent_disk env _ _ disk2

/-- Claim C7 as stated is false on the code: a request that saves a deck
file and then hits an exception in output generation reaches the outer
`except Exception` handler, which flashes and redirects without running
the cleanup loop — the recorded temporary file is still on disk when the
handler returns. -/
theorem c7_counterexample :
    (App.analyzeHandler envC7).exit = App.ExitKind.errorRedirect ∧
    (App.analyzeHandler envC7).disk = ["uploads/TS_deck_f.pdf"] :=
  ⟨rfl, rfl⟩

/-- Claim C7 (amended): on every exit path except the outer generic
exception handler — success, validation failure, extraction failure,
download failure, generation failure, output failure — every recorded
temporary file is deleted before the handler returns; the generic
exception path alone skips the cleanup loop. -/
theorem c7_cleanup_amended (env : App.HandlerEnv)
    (h : (App.analyzeHandler env).exit ≠ App.ExitKind.errorRedirect) :
    (App.analyzeHandler env).disk = [] :=
  (analyzeHandler_cleanup env).resolve_left h

/-- Witness for the amended C7: the baseline request exits normally with
nothing left on disk. -/
theorem c7_cleanup_witness : (App.analyzeHandler envBase).disk = [] :=
  c7_cleanup_amended envBase (by decide)

/-- Claim C2 as stated is false on the code: a request with no deck, no
transcript and a single resource URL that fails to fetch passes the gate
(which tests the parsed URL list, not the fetched resources) and invokes
`analyze_presentation` with empty combined content and no resources. -/
theorem c2_counterexample :
    (App.analyzeHandler envC2).call = some ⟨"", none⟩ := rfl

/-- Claim C2 (amended): every request that reaches the generation step
has non-empty combined content or a non-empty parsed resource-URL list;
the gate does not inspect fetch results, so a request whose URLs all fail
still reaches generation (with `additional_resources = None`). -/
theorem c2_content_gate_amended (env : App.HandlerEnv) (c : App.AnalyzeCall)
    (h : (App.analyzeHandler env).call = some c) :
    c.slide_content ≠ "" ∨ App.parseResourceUrls env.resource_urls_text ≠ [] := by
  simp only [App.analyzeHandler] at h
  split at h
  · simp at h
  · rcases hd : App.deckStage env with d | d | ⟨slide, disk1⟩ <;> rw [hd] at h
    · simp at h
    · simp at h
    · dsimp only at h
      rcases ht : App.transcriptStage env disk1 with d | d | ⟨transcript, disk2⟩ <;>
        rw [ht] at h
      · simp at h
      · simp at h
      · dsimp only at h
        obtain ⟨hc, hor⟩ := afterContent_call env _ _ disk2 c h
        rcases hor with h1 | h1
        · exact Or.inl (hc ▸ h1)
        · exact Or.inr h1

/-- Witness for the amended C2: the all-URLs-failed request that reached
generation indeed had a non-empty parsed URL list. -/
theorem c2_content_gate_witness :
    App.parseResourceUrls envC2.resource_urls_text ≠ [] :=
  (c2_content_gate_amended envC2 ⟨"", none⟩ rfl).resolve_left (by simp)

/-! ## Claim C9 — fallback vs template prompt builders -/

/-- The two files' per-resource loops produce identical text. -/
theorem resourceBlocks_eq (i : Nat) (rs : List WebScraper.Resource) :
    AIAnalyzer.resourceBlocks i rs = PromptLoader.resourceBlocks i rs := by
  induction rs generalizing i with
  | nil => rfl
  | cons r rest ih =>
    simp only [AIAnalyzer.resourceBlocks, PromptLoader.resourceBlocks,
      AIAnalyzer.resourceBlock, PromptLoader.resourceBlock, ih]

/-- Claim C9 as stated is false on the code: even for a template whose
role equals the fallback's hardcoded role, on a context with no slides,
no GitHub URL and no resources the two builders produce different header
blocks — the fallback f-string emits placeholder empty lines for the
absent slide section, while the template path appends no lines at all. -/
theorem c9_counterexample :
    tmpl9.role = some "pre-sales engineering advisor" ∧
    AIAnalyzer.headerFb ctx9 ≠ PromptLoader.headerTmpl tmpl9 ctx9 :=
  ⟨rfl, by decide⟩

/-- Claim C9 (amended): the two builders compute identical substituted
values for `content_type`, `resources_note` and `resource_focus`, and
identical GitHub and per-resource blocks, so the field-substitution
semantics do not drift; but the assembled header blocks coincide only
when slides are present and resources are absent (and the template's role
matches the fallback's hardcoded role) — with no slides, or with both
slides and resources, the two headers differ in blank-line layout. -/
theorem c9_no_drift_amended (ctx : PromptCtx) (tmpl : PromptLoader.PromptTemplate) :
    AIAnalyzer.content_type ctx.slide_content
      = PromptLoader.content_type ctx.slide_content ∧
    AIAnalyzer.resources_note ctx.additional_resources
      = PromptLoader.resources_note ctx.additional_resources ∧
    AIAnalyzer.resource_focus ctx.slide_content ctx.additional_resources
      = PromptLoader.resource_focus ctx.slide_content ctx.additional_resources ∧
    AIAnalyzer.github_section ctx.github_url
      = PromptLoader.github_section ctx.github_url ∧
    AIAnalyzer.resources_section ctx.additional_resources
      = PromptLoader.resources_section ctx.additional_resources ∧
    (tmpl.role = some "pre-sales engineering advisor" →
      AIAnalyzer.has_slides ctx.slide_content = true →
      optListTruthy ctx.additional_resources = false →
      AIAnalyzer.headerFb ctx = PromptLoader.headerTmpl tmpl ctx) := by
  refine ⟨rfl, rfl, rfl, rfl, ?_, ?_⟩
  · unfold AIAnalyzer.resources_section PromptLoader.resources_section
    by_cases hr : optListTruthy ctx.additional_resources
    · simp [hr, resourceBlocks_eq]
    · simp [hr]
  · intro hrole hs hr
    have hs2 : PromptLoader.has_slides ctx.slide_content = true := hs
    have hre : AIAnalyzer.resources_section ctx.additional_resources = "" := by
      simp [AIAnalyzer.resources_section, hr]
    have hrelo : PromptLoader.resources_section ctx.additional_resources = "" := by
      simp [PromptLoader.resources_section, hr]
    have hgh : PromptLoader.github_section ctx.github_url
        = AIAnalyzer.github_section ctx.github_url := rfl
    unfold AIAnalyzer.headerFb PromptLoader.headerTmpl PromptLoader.promptLinesHeader
    rw [hrole, hre, hrelo, hgh]
    simp only [AIAnalyzer.content_type, PromptLoader.content_type, hs, hs2,
      if_true, Option.getD_some, ite_true]
    simp only [ne_eq, not_true_eq_false, if_false, ite_false, List.append_nil,
      List.cons_append, List.nil_append]
    simp [PyStr.joinWith, String.append_assoc, String.append_empty,
      String.empty_append]
    rw [show ("You are a pre-sales engineering advisor analyzing presentation.\n\nCONTEXT:\n- Title: " : String)
          = "You are a pre-sales engineering advisor analyzing presentation.\n"
            ++ "\n" ++ "CONTEXT:\n" ++ "- Title: " from rfl,
        show ("\n- Presenters: " : String) = "\n" ++ "- Presenters: " from rfl,
        show ("\n- Attendee\x27s Personal Notes: " : String)
          = "\n" ++ "- Attendee\x27s Personal Notes: " from rfl,
        show ("\nSLIDE CONTENT EXTRACTED:\n" : String)
          = "\n" ++ "SLIDE CONTENT EXTRACTED:\n" from rfl]
    simp only [String.append_assoc]

/-- Witness for the amended C9: with slide content present, no resources,
and the matching role, the two builders produce the same header block. -/
theorem c9_no_drift_witness :
    AIAnalyzer.headerFb ctx9w = PromptLoader.headerTmpl tmpl9 ctx9w :=
  (c9_no_drift_amended ctx9w tmpl9).2.2.2.2.2 rfl (by decide) rfl
